import Mathlib

/-!
Shallow embedding of the transaction submission and confirmation layer of
the candy-machine-ui repository (`src/common/connection.tsx` and its
variants): `awaitTransactionSignatureConfirmation`, `sendSignedTransaction`,
`sendTransaction` and `sendTransactions`.

External collaborators (the RPC connection and the wallet) are modelled as
environments: each RPC call's outcome is a field of an environment record,
and the functions are pure state-passing translations of the TypeScript,
returning their result together with a trace of the side effects they
issued.
-/

namespace CandyMachine

/-- Default overall timeout in milliseconds (`DEFAULT_TIMEOUT = 60000`). -/
def DEFAULT_TIMEOUT : Nat := 60000

/-- The fixed marker looked for in simulation logs
(`'Program log: '` in `sendSignedTransaction`). -/
def programLogMarker : String := "Program log: "

/-- An opaque error payload, as attached to a `SignatureStatus.err` or a
`SimulatedTransactionResponse.err` by the RPC collaborator.  The code only
passes it through (and `JSON.stringify`s it when rethrowing); we model the
payload, and its stringification, as the string itself. -/
abbrev ErrPayload := String

/-- The definitive signature event delivered by the confirmation race
(either the websocket `onSignature` callback or a successful
`getSignatureStatuses` poll): a slot and an optional error, as in the
`SignatureStatus` fields the code reads. -/
structure StatusEvent where
  slot : Nat
  err : Option ErrPayload
deriving Repr, DecidableEq

/-- Outcome of `awaitTransactionSignatureConfirmation` as observed by its
caller: the promise resolved with an error-free status, rejected with the
`\x7btimeout: true\x7d` marker object, or rejected with an error payload
(the websocket rejects with the errored status, the poll loop with
`status.err`; either way the caller sees a value without a `timeout`
field). -/
inductive ConfirmResult where
  | confirmed (slot : Nat)
  | timedOut
  | errored (err : ErrPayload)
deriving Repr, DecidableEq

/-- Model of `awaitTransactionSignatureConfirmation`'s race between the
`setTimeout` timer and the two confirmation sources.  `arrival` is the
first definitive event either source reports, tagged with its time in
milliseconds after the start; the timer fires at `timeout` ms and wins
whenever no definitive event arrived strictly before it (in particular
when the transaction never confirms, `arrival = none`).  The second
component of the result is the time at which the promise settles. -/
def awaitConfirmation (timeout : Nat) (arrival : Option (Nat × StatusEvent)) :
    ConfirmResult × Nat :=
  match arrival with
  | none => (.timedOut, timeout)
  | some (t, ev) =>
    if t < timeout then
      match ev.err with
      | some e => (.errored e, t)
      | none => (.confirmed ev.slot, t)
    else (.timedOut, timeout)

/-- `SimulatedTransactionResponse` as read by `sendSignedTransaction`'s
fallback: the `err` and `logs` fields (both nullable in the SDK type). -/
structure SimulatedTransactionResponse where
  err : Option ErrPayload
  logs : Option (List String)
deriving Repr, DecidableEq

/-- Outcome of the `simulateTransaction` call in the fallback: either the
call threw (caught and logged, leaving `simulateResult` null) or it
returned a response value. -/
inductive SimOutcome where
  | threw
  | ok (res : SimulatedTransactionResponse)
deriving Repr, DecidableEq

/-- The rejection values `sendSignedTransaction` can surface, following the
spec's taxonomy: `Timeout` for
`'Timed out awaiting confirmation on transaction'`, `SimulationFailure`
for the `` `Transaction failed: ...` `` message extracted from a marker log
line, and `RawFailure` for the rethrown `JSON.stringify(simulateResult.err)`
payload. -/
inductive SendError where
  | timeout
  | simulationFailure (message : String)
  | rawFailure (raw : ErrPayload)
deriving Repr, DecidableEq

/-- Successful result of `sendSignedTransaction`: `\x7b txid, slot \x7d`. -/
structure SendOk where
  txid : String
  slot : Nat
deriving Repr, DecidableEq

/-- Side effects issued by `sendSignedTransaction` that the claims talk
about: the first immediate `sendRawTransaction` (whose returned signature
is the txid), and the `simulateTransaction` fallback call. -/
inductive SSEffect where
  | submitRaw (txid : String)
  | simulate
deriving Repr, DecidableEq

/-- Environment for one `sendSignedTransaction` call: the signature the
first immediate `connection.sendRawTransaction` returns, the first
definitive confirmation event (with its time) seen by
`awaitTransactionSignatureConfirmation`, and what the
`simulateTransaction` fallback would produce if invoked. -/
structure SendEnv where
  txid : String
  arrival : Option (Nat × StatusEvent)
  sim : SimOutcome
deriving Repr, DecidableEq

/-- `line.startsWith('Program log: ')`: JavaScript's `startsWith` is the
prefix test, embedded on the character sequences of the strings. -/
def startsWithMarker (line : String) : Bool :=
  programLogMarker.data.isPrefixOf line.data

/-- The backwards `for` loop over `simulateResult.logs` that stops at the
first line (scanning from the last log line to the first) starting with
the `'Program log: '` marker. -/
def lastMarkerLine (logs : List String) : Option String :=
  logs.reverse.find? (fun line => startsWithMarker line)

/-- Model of `sendSignedTransaction`.  The transaction is serialized and
submitted once immediately (yielding `env.txid`), then the confirmation is
awaited with the same `timeout`; on a non-timeout failure the code falls
back to `simulateTransaction` and inspects its `err` and `logs`.  The
mutable `slot` starts at `0` and is assigned only on the success path
(`slot = confirmation?.slot || 0`, which is the reported slot, `0`
included); every path that survives the `catch` block returns
`\x7b txid, slot \x7d`. -/
def sendSignedTransaction (env : SendEnv) (timeout : Nat := DEFAULT_TIMEOUT) :
    Except SendError SendOk × List SSEffect :=
  match (awaitConfirmation timeout env.arrival).1 with
  | .confirmed slot => (.ok ⟨env.txid, slot⟩, [.submitRaw env.txid])
  | .timedOut => (.error .timeout, [.submitRaw env.txid])
  | .errored _ =>
    match env.sim with
    | .threw =>
      -- simulateTransaction threw: caught, `simulateResult` stays null,
      -- the guard `simulateResult && simulateResult.err` is skipped and
      -- the function falls through to the final `return \x7b txid, slot \x7d`.
      (.ok ⟨env.txid, 0⟩, [.submitRaw env.txid, .simulate])
    | .ok res =>
      match res.err with
      | none =>
        -- `simulateResult.err` is null: guard skipped, falls through.
        (.ok ⟨env.txid, 0⟩, [.submitRaw env.txid, .simulate])
      | some err =>
        match res.logs with
        | none => (.error (.rawFailure err), [.submitRaw env.txid, .simulate])
        | some logs =>
          match lastMarkerLine logs with
          | some line =>
            (.error (.simulationFailure
                ("Transaction failed: " ++ line.drop programLogMarker.length)),
              [.submitRaw env.txid, .simulate])
          | none => (.error (.rawFailure err), [.submitRaw env.txid, .simulate])

/-! ### sendTransaction / sendTransactions (batch variants) -/

/-- Public keys are opaque identifiers compared with `equals`. -/
abbrev PubKey := Nat

/-- A `Keypair` as used here: only its `publicKey` is read. -/
structure Keypair where
  publicKey : PubKey
deriving Repr, DecidableEq

/-- A `TransactionInstruction` is opaque to this layer; it is only
collected into transactions. -/
structure TransactionInstruction where
  programId : PubKey
deriving Repr, DecidableEq

/-- An entry of `transaction.signatures`: the code only reads the
`publicKey` of each signature pair. -/
structure SigPair where
  publicKey : PubKey
deriving Repr, DecidableEq

/-- The fields of a web3 `Transaction` that this layer reads or writes:
the added instructions, `recentBlockhash`, `feePayer` and the signature
pairs recorded by `partialSign`. -/
structure Transaction where
  instructions : List TransactionInstruction
  recentBlockhash : Option String := none
  feePayer : Option PubKey := none
  signatures : List SigPair := []
deriving Repr, DecidableEq

/-- `transaction.partialSign(...signers)`: records one signature pair per
signer, keyed by the signer's public key. -/
def Transaction.partialSign (t : Transaction) (signers : List Keypair) : Transaction :=
  { t with signatures := t.signatures ++ signers.map (fun k => ⟨k.publicKey⟩) }

/-- The external wallet collaborator (`anchor.Wallet`): a possibly absent
active public key and the signing operation for one transaction.
`signAllTransactions` signs each transaction in the list with `signTx`. -/
structure Wallet where
  publicKey : Option PubKey
  signTx : Transaction → Transaction

/-- `BlockhashAndFeeCalculator`: the recent-block reference attached to
built transactions; only `blockhash` is read here. -/
structure BlockhashAndFeeCalculator where
  blockhash : String
deriving Repr, DecidableEq

/-- `SequenceType` from utils: `Sequential`, `Parallel`, `StopOnFailure`. -/
inductive SequenceType where
  | Sequential
  | Parallel
  | StopOnFailure
deriving Repr, DecidableEq

/-- A JavaScript value as returned by a callback: the filter callbacks in
`sendTransactions` have block bodies with no `return` statement, so they
return `undefined` rather than a boolean. -/
inductive JsValue where
  | undefined
  | bool (b : Bool)
deriving Repr, DecidableEq

/-- JavaScript truthiness, as `Array.prototype.filter` applies it to the
callback's return value: `undefined` is falsy. -/
def jsTruthy : JsValue → Bool
  | .undefined => false
  | .bool b => b

/-- The callback of the `partiallySignedTransactions` filter.  Its body is
the block `\x7b transaction.signatures.find(...); \x7d`: the `find`
expression is evaluated and discarded, and since the block contains no
`return` statement the callback returns `undefined`. -/
def partiallySignedCallback (wpk : PubKey) (transaction : Transaction) : JsValue :=
  let _ := transaction.signatures.find? (fun signature => signature.publicKey == wpk)
  JsValue.undefined

/-- The callback of the `fullySignedTransactions` filter.  Its body is the
block `\x7b !transaction.signatures.find(...); \x7d`: the negation is
evaluated and discarded, and the callback returns `undefined`. -/
def fullySignedCallback (wpk : PubKey) (transaction : Transaction) : JsValue :=
  let _ := !(transaction.signatures.find?
      (fun signature => signature.publicKey == wpk)).isSome
  JsValue.undefined

/-- `unsignedTxns.filter((transaction) => \x7b ... find ...; \x7d)`. -/
def partiallySignedTransactions (wpk : PubKey) (unsignedTxns : List Transaction) :
    List Transaction :=
  unsignedTxns.filter (fun transaction => jsTruthy (partiallySignedCallback wpk transaction))

/-- `unsignedTxns.filter((transaction) => \x7b !... find ...; \x7d)`. -/
def fullySignedTransactions (wpk : PubKey) (unsignedTxns : List Transaction) :
    List Transaction :=
  unsignedTxns.filter (fun transaction => jsTruthy (fullySignedCallback wpk transaction))

/-- One iteration of the build loop of `sendTransactions`: a fresh
`Transaction` collecting the instruction subset, assigned the shared
`block.blockhash` and the wallet's fee payer, then partially signed by the
group's signers when there are any. -/
def buildTxn (blockhash : String) (wpk : PubKey)
    (instructionSubset : List TransactionInstruction)
    (signerSubset : List Keypair) : Transaction :=
  let transaction : Transaction :=
    { instructions := instructionSubset
      recentBlockhash := some blockhash
      feePayer := some wpk }
  if signerSubset.length > 0 then transaction.partialSign signerSubset else transaction

/-- The build loop of `sendTransactions` over the instruction groups and
their signer groups (the JS loop indexes both arrays by `i`; the zipped
list models the aligned traversal).  Groups with no instructions are
skipped (`continue`). -/
def buildUnsignedTxns (blockhash : String) (wpk : PubKey)
    (groups : List (List TransactionInstruction × List Keypair)) : List Transaction :=
  groups.filterMap (fun g =>
    if g.1.length = 0 then none else some (buildTxn blockhash wpk g.1 g.2))

/-- Rejection values of the batch functions: the `WalletNotConnectedError`
guard, or a submission failure surfaced by `Promise.all`. -/
inductive TxError where
  | walletNotConnected
  | send (e : SendError)
deriving Repr, DecidableEq

/-- Side effects of `sendTransactions` the claims talk about: the single
`getLatestBlockhash` fetch, the `signAllTransactions` delegation, the
creation of the `i`-th `sendSignedTransaction` promise (which issues that
transaction's submission), and the success/failure callbacks. -/
inductive TxsEffect where
  | fetchBlockhash
  | signAll (n : Nat)
  | submit (i : Nat)
  | successCb (i : Nat)
  | failureCb (i : Nat)
deriving Repr, DecidableEq

/-- Environment for one `sendTransactions` call: the latest blockhash the
connection would return, and the outcome of the `i`-th signed
transaction's `sendSignedTransaction` promise. -/
structure TxsEnv where
  latestBlockhash : BlockhashAndFeeCalculator
  sendResult : Nat → Except SendError SendOk

/-- The non-`Parallel` submission loop of `sendTransactions` over the
indices of `signedTxns`.  Each iteration creates the promise (issuing the
submission) and awaits it: on success the success callback fires and the
promise joins `pendingTxns`; on failure the failure callback fires and,
under `StopOnFailure`, the loop returns early with `\x7bnumber: i,
txs: pendingTxns\x7d` (the first component `some i`); otherwise the loop
continues.  Returns the early-return index (if any), the settled
`pendingTxns`, and the effect trace. -/
def loopSeq (sendResult : Nat → Except SendError SendOk) (stopOnFailure : Bool) :
    List Nat → List SendOk → (Option Nat × List SendOk) × List TxsEffect
  | [], pending => ((none, pending), [])
  | i :: rest, pending =>
    match sendResult i with
    | .ok r =>
      let ((early, txs), tr) := loopSeq sendResult stopOnFailure rest (pending ++ [r])
      ((early, txs), .submit i :: .successCb i :: tr)
    | .error _ =>
      if stopOnFailure then ((some i, pending), [.submit i, .failureCb i])
      else
        let ((early, txs), tr) := loopSeq sendResult stopOnFailure rest pending
        ((early, txs), .submit i :: .failureCb i :: tr)

/-- `Promise.all`: resolves with every result when all resolve, rejects
with the first rejection otherwise. -/
def promiseAll : List (Except SendError SendOk) → Except SendError (List SendOk)
  | [] => .ok []
  | .error e :: _ => .error e
  | .ok v :: rest =>
    match promiseAll rest with
    | .ok vs => .ok (v :: vs)
    | .error e => .error e

/-- Model of `sendTransactions`.  Guards on the wallet's public key, picks
the shared block (the caller's, or a single `getLatestBlockhash` fetch),
builds one transaction per non-empty instruction group around
`beforeTransactions`/`afterTransactions`, splits them with the two
(returnless) signing filters, delegates `signAllTransactions` to the
wallet, then runs the submission loop according to `sequenceType`. -/
def sendTransactions (env : TxsEnv)
    (instructions : List (List TransactionInstruction))
    (signers : List (List Keypair))
    (wallet : Wallet)
    (sequenceType : SequenceType := .Parallel)
    (block : Option BlockhashAndFeeCalculator := none)
    (beforeTransactions : List Transaction := [])
    (afterTransactions : List Transaction := []) :
    Except TxError (Nat × List SendOk) × List TxsEffect :=
  match wallet.publicKey with
  | none => (.error .walletNotConnected, [])
  | some wpk =>
    let blockAndTrace : BlockhashAndFeeCalculator × List TxsEffect :=
      match block with
      | some b => (b, [])
      | none => (env.latestBlockhash, [.fetchBlockhash])
    let builtTxns := buildUnsignedTxns blockAndTrace.1.blockhash wpk
      (instructions.zip signers)
    let unsignedTxns := beforeTransactions ++ builtTxns ++ afterTransactions
    let psts := partiallySignedTransactions wpk unsignedTxns
    let fsts := fullySignedTransactions wpk unsignedTxns
    let signedTxns := fsts ++ psts.map wallet.signTx
    let tr1 := blockAndTrace.2 ++ [.signAll psts.length]
    match sequenceType with
    | .Parallel =>
      let trSub := (List.range signedTxns.length).map TxsEffect.submit
      match promiseAll ((List.range signedTxns.length).map env.sendResult) with
      | .ok txs => (.ok (signedTxns.length, txs), tr1 ++ trSub)
      | .error e => (.error (.send e), tr1 ++ trSub)
    | seq =>
      let r := loopSeq env.sendResult (seq == .StopOnFailure)
        (List.range signedTxns.length) []
      (.ok (r.1.1.getD signedTxns.length, r.1.2), tr1 ++ r.2)

/-- Side effects of the single-transaction `sendTransaction`. -/
inductive STEffect where
  | fetchBlockhash
  | walletSign
  | submit
  | awaitConfirm
deriving Repr, DecidableEq

/-- Rejection values of `sendTransaction`: the `WalletNotConnectedError`
guard, the propagated `\x7btimeout: true\x7d` rejection or raw error of the
confirmation wait, the explicit timed-out message for a falsy resolved
confirmation, and the `` `Raw transaction ... failed` `` error. -/
inductive STError where
  | walletNotConnected
  | timeoutObj
  | confirmErr (e : ErrPayload)
  | timedOutMessage
  | rawTransactionFailed (txid : String)
deriving Repr, DecidableEq

/-- Environment for one `sendTransaction` call: the latest blockhash, the
signature returned by `sendRawTransaction`, and the first definitive
confirmation event (with its time). -/
structure STEnv where
  latestBlockhash : BlockhashAndFeeCalculator
  txid : String
  arrival : Option (Nat × StatusEvent)

/-- Model of `sendTransaction`.  Guards on the wallet's public key; when
given instructions (rather than a ready transaction) it builds a
transaction with the caller's block or a fetched one, sets the fee payer
(the first signer when `includesFeePayer`, the wallet otherwise),
partially signs with the signers, and delegates to the wallet's signer
unless `includesFeePayer`; then serializes, submits, and (when
`awaitConfirmation`) waits for the confirmation with the default timeout,
rejecting on timeout or confirmation error. -/
def sendTransaction (env : STEnv)
    (instructions : Sum (List TransactionInstruction) Transaction)
    (signers : List Keypair)
    (wallet : Wallet)
    (awaitConfirmationFlag : Bool := true)
    (includesFeePayer : Bool := false)
    (block : Option BlockhashAndFeeCalculator := none) :
    Except STError SendOk × List STEffect :=
  match wallet.publicKey with
  | none => (.error .walletNotConnected, [])
  | some wpk =>
    let builtAndTrace : Transaction × List STEffect :=
      match instructions with
      | .inr transaction => (transaction, [])
      | .inl instrs =>
        let blockAndTrace : BlockhashAndFeeCalculator × List STEffect :=
          match block with
          | some b => (b, [])
          | none => (env.latestBlockhash, [.fetchBlockhash])
        let transaction : Transaction :=
          { instructions := instrs
            recentBlockhash := some blockAndTrace.1.blockhash
            feePayer := if includesFeePayer then
                (signers.head?.map (fun k => k.publicKey))
              else some wpk }
        let transaction :=
          if signers.length > 0 then transaction.partialSign signers else transaction
        if includesFeePayer then (transaction, blockAndTrace.2)
        else (wallet.signTx transaction, blockAndTrace.2 ++ [.walletSign])
    let tr := builtAndTrace.2 ++ [.submit]
    if awaitConfirmationFlag then
      match (awaitConfirmation DEFAULT_TIMEOUT env.arrival).1 with
      | .timedOut => (.error .timeoutObj, tr ++ [.awaitConfirm])
      | .errored e => (.error (.confirmErr e), tr ++ [.awaitConfirm])
      | .confirmed slot => (.ok ⟨env.txid, slot⟩, tr ++ [.awaitConfirm])
    else
      (.ok ⟨env.txid, 0⟩, tr)

/-! ### Theorems -/

/-- A line starting with the marker is the marker followed by the text
after it: `line = programLogMarker ++ line.drop programLogMarker.length`. -/
theorem startsWithMarker_decomp (line : String) (h : startsWithMarker line = true) :
    programLogMarker ++ line.drop programLogMarker.length = line := by
  unfold startsWithMarker at h
  obtain ⟨tl, htl⟩ := List.isPrefixOf_iff_prefix.mp h
  apply String.ext
  show programLogMarker.data ++ (line.drop programLogMarker.length).data = line.data
  rw [String.data_drop, ← htl]
  have hlen : programLogMarker.length = programLogMarker.data.length := rfl
  rw [hlen, List.drop_left]

/-- C1: when the confirmation race delivers an error-free status at time
`t` before the timeout, `sendSignedTransaction` resolves with the txid
returned by the first immediate submission (the one recorded by the
`submitRaw` effect) and the slot reported by that confirmation. -/
theorem sendSignedTransaction_confirmed (env : SendEnv) (timeout t : Nat)
    (ev : StatusEvent) (harr : env.arrival = some (t, ev)) (ht : t < timeout)
    (herr : ev.err = none) :
    sendSignedTransaction env timeout =
      (.ok ⟨env.txid, ev.slot⟩, [.submitRaw env.txid]) := by
  unfold sendSignedTransaction awaitConfirmation
  rw [harr]
  simp [ht, herr]

/-- Witness for C1 at a concrete environment. -/
theorem sendSignedTransaction_confirmed_witness :
    sendSignedTransaction ⟨"tx1", some (5, ⟨42, none⟩), .threw⟩ 100 =
      (.ok ⟨"tx1", 42⟩, [.submitRaw "tx1"]) :=
  sendSignedTransaction_confirmed ⟨"tx1", some (5, ⟨42, none⟩), .threw⟩ 100 5
    ⟨42, none⟩ rfl (by decide) rfl

/-- C4: when no definitive confirmation event ever arrives, the
confirmation wait settles with the timeout rejection exactly at the
configured duration (`DEFAULT_TIMEOUT = 60000` by default),
`sendSignedTransaction` rejects with the timeout error, and its effect
trace contains no simulation fallback. -/
theorem sendSignedTransaction_timeout (env : SendEnv) (timeout : Nat)
    (harr : env.arrival = none) :
    awaitConfirmation timeout env.arrival = (.timedOut, timeout) ∧
    sendSignedTransaction env timeout = (.error .timeout, [.submitRaw env.txid]) ∧
    SSEffect.simulate ∉ (sendSignedTransaction env timeout).2 ∧
    DEFAULT_TIMEOUT = 60000 := by
  refine ⟨by rw [harr]; rfl, ?_, ?_, rfl⟩
  · unfold sendSignedTransaction awaitConfirmation
    rw [harr]
  · unfold sendSignedTransaction awaitConfirmation
    rw [harr]
    simp

/-- Witness for C4 at a concrete environment. -/
theorem sendSignedTransaction_timeout_witness :
    awaitConfirmation 60000 (SendEnv.arrival ⟨"tx4", none, .threw⟩) =
        (.timedOut, 60000) ∧
    sendSignedTransaction ⟨"tx4", none, .threw⟩ 60000 =
        (.error .timeout, [.submitRaw "tx4"]) ∧
    SSEffect.simulate ∉ (sendSignedTransaction ⟨"tx4", none, .threw⟩ 60000).2 ∧
    DEFAULT_TIMEOUT = 60000 :=
  sendSignedTransaction_timeout ⟨"tx4", none, .threw⟩ 60000 rfl

/-- C10: when the confirmation reports an error but the fallback
simulation either throws or returns a response without an error,
`sendSignedTransaction` swallows the failure and resolves with the
original txid and slot `0` instead of rejecting. -/
theorem sendSignedTransaction_swallows (env : SendEnv) (timeout t : Nat)
    (ev : StatusEvent) (e : ErrPayload)
    (harr : env.arrival = some (t, ev)) (ht : t < timeout) (herr : ev.err = some e)
    (hsim : env.sim = .threw ∨ ∃ res, env.sim = .ok res ∧ res.err = none) :
    sendSignedTransaction env timeout =
      (.ok ⟨env.txid, 0⟩, [.submitRaw env.txid, .simulate]) := by
  unfold sendSignedTransaction awaitConfirmation
  rw [harr]
  rcases hsim with hsim | ⟨res, hsim, hres⟩
  · simp [ht, herr, hsim]
  · simp [ht, herr, hsim, hres]

/-- Witness for C10 at a concrete environment (simulation returns no
error). -/
theorem sendSignedTransaction_swallows_witness :
    sendSignedTransaction ⟨"tx10", some (5, ⟨9, some "err"⟩), .ok ⟨none, none⟩⟩ 100 =
      (.ok ⟨"tx10", 0⟩, [.submitRaw "tx10", .simulate]) :=
  sendSignedTransaction_swallows ⟨"tx10", some (5, ⟨9, some "err"⟩), .ok ⟨none, none⟩⟩
    100 5 ⟨9, some "err"⟩ "err" rfl (by decide) rfl
    (Or.inr ⟨⟨none, none⟩, rfl, rfl⟩)

/-- C3: when the confirmation reports an error and the fallback
simulation returns an error but its logs carry no line starting with the
marker (logs absent, or present with no marker line),
`sendSignedTransaction` rejects with the raw error payload. -/
theorem sendSignedTransaction_rawFailure (env : SendEnv) (timeout t : Nat)
    (ev : StatusEvent) (e : ErrPayload) (res : SimulatedTransactionResponse)
    (err : ErrPayload)
    (harr : env.arrival = some (t, ev)) (ht : t < timeout) (herr : ev.err = some e)
    (hsim : env.sim = .ok res) (hres : res.err = some err)
    (hlogs : res.logs = none ∨
      ∃ logs, res.logs = some logs ∧ ∀ line ∈ logs, startsWithMarker line = false) :
    sendSignedTransaction env timeout =
      (.error (.rawFailure err), [.submitRaw env.txid, .simulate]) := by
  unfold sendSignedTransaction awaitConfirmation
  rw [harr]
  rcases hlogs with hlogs | ⟨logs, hlogs, hnone⟩
  · simp [ht, herr, hsim, hres, hlogs]
  · have hfind : lastMarkerLine logs = none := by
      unfold lastMarkerLine
      rw [List.find?_eq_none]
      intro line hline
      simp [hnone line (List.mem_reverse.mp hline)]
    simp [ht, herr, hsim, hres, hlogs, hfind]

/-- Witness for C3 at a concrete environment (logs present, no marker
line). -/
theorem sendSignedTransaction_rawFailure_witness :
    sendSignedTransaction
      ⟨"tx3", some (5, ⟨9, some "err"⟩), .ok ⟨some "RAW", some ["a", "b"]⟩⟩ 100 =
      (.error (.rawFailure "RAW"), [.submitRaw "tx3", .simulate]) :=
  sendSignedTransaction_rawFailure
    ⟨"tx3", some (5, ⟨9, some "err"⟩), .ok ⟨some "RAW", some ["a", "b"]⟩⟩
    100 5 ⟨9, some "err"⟩ "err" ⟨some "RAW", some ["a", "b"]⟩ "RAW"
    rfl (by decide) rfl rfl rfl
    (Or.inr ⟨["a", "b"], rfl, by decide⟩)

/-- C2: when the confirmation reports an error and the fallback simulation
returns an error together with at least one log line starting with the
marker, `sendSignedTransaction` rejects with a simulation failure whose
message carries the exact suffix text after the marker of a marker line of
the log. -/
theorem sendSignedTransaction_simFailure (env : SendEnv) (timeout t : Nat)
    (ev : StatusEvent) (e : ErrPayload) (res : SimulatedTransactionResponse)
    (err : ErrPayload) (logs : List String)
    (harr : env.arrival = some (t, ev)) (ht : t < timeout) (herr : ev.err = some e)
    (hsim : env.sim = .ok res) (hres : res.err = some err)
    (hlogs : res.logs = some logs)
    (hmarker : ∃ line ∈ logs, startsWithMarker line = true) :
    ∃ suffix, programLogMarker ++ suffix ∈ logs ∧
      sendSignedTransaction env timeout =
        (.error (.simulationFailure ("Transaction failed: " ++ suffix)),
          [.submitRaw env.txid, .simulate]) := by
  obtain ⟨line0, hmem0, hpre0⟩ := hmarker
  have hsome : (logs.reverse.find? (fun line => startsWithMarker line)).isSome := by
    rw [List.find?_isSome]
    exact ⟨line0, List.mem_reverse.mpr hmem0, hpre0⟩
  obtain ⟨y, hy⟩ := Option.isSome_iff_exists.mp hsome
  have hpy : startsWithMarker y = true := List.find?_some hy
  have hmy : y ∈ logs := List.mem_reverse.mp (List.mem_of_find?_eq_some hy)
  refine ⟨y.drop programLogMarker.length, ?_, ?_⟩
  · rw [startsWithMarker_decomp y hpy]
    exact hmy
  · have hfind : lastMarkerLine logs = some y := hy
    unfold sendSignedTransaction awaitConfirmation
    rw [harr]
    simp [ht, herr, hsim, hres, hlogs, hfind]

/-- Witness for C2 at a concrete environment. -/
theorem sendSignedTransaction_simFailure_witness :
    ∃ suffix, programLogMarker ++ suffix ∈ ["a", "Program log: boom"] ∧
      sendSignedTransaction
        ⟨"tx2", some (5, ⟨9, some "err"⟩),
          .ok ⟨some "RAW", some ["a", "Program log: boom"]⟩⟩ 100 =
        (.error (.simulationFailure ("Transaction failed: " ++ suffix)),
          [.submitRaw "tx2", .simulate]) :=
  sendSignedTransaction_simFailure
    ⟨"tx2", some (5, ⟨9, some "err"⟩),
      .ok ⟨some "RAW", some ["a", "Program log: boom"]⟩⟩
    100 5 ⟨9, some "err"⟩ "err" ⟨some "RAW", some ["a", "Program log: boom"]⟩
    "RAW" ["a", "Program log: boom"]
    rfl (by decide) rfl rfl rfl rfl
    ⟨"Program log: boom", by decide, by decide⟩

/-- The `partiallySignedTransactions` filter keeps nothing: its callback
returns `undefined`, which is falsy. -/
theorem partiallySigned_eq_nil (wpk : PubKey) (txs : List Transaction) :
    partiallySignedTransactions wpk txs = [] := by
  simp [partiallySignedTransactions, partiallySignedCallback, jsTruthy]

/-- The `fullySignedTransactions` filter keeps nothing: its callback
returns `undefined`, which is falsy. -/
theorem fullySigned_eq_nil (wpk : PubKey) (txs : List Transaction) :
    fullySignedTransactions wpk txs = [] := by
  simp [fullySignedTransactions, fullySignedCallback, jsTruthy]

/-- C7: both signing filters pass callbacks whose block bodies have no
return statement, so `partiallySignedTransactions` and
`fullySignedTransactions` are empty on every input; consequently
`signedTxns` is empty, `sendTransactions` issues no submission, and
returns `number = 0` with an empty `txs` list. -/
theorem sendTransactions_submits_nothing :
    (∀ wpk txs, partiallySignedTransactions wpk txs = [] ∧
        fullySignedTransactions wpk txs = []) ∧
    (∀ (env : TxsEnv) instructions signers (wallet : Wallet) sequenceType block
        beforeTransactions afterTransactions wpk,
      wallet.publicKey = some wpk →
      (sendTransactions env instructions signers wallet sequenceType block
          beforeTransactions afterTransactions).1 = .ok (0, []) ∧
      ∀ i, TxsEffect.submit i ∉
        (sendTransactions env instructions signers wallet sequenceType block
          beforeTransactions afterTransactions).2) := by
  refine ⟨fun wpk txs => ⟨partiallySigned_eq_nil wpk txs, fullySigned_eq_nil wpk txs⟩, ?_⟩
  intro env instructions signers wallet sequenceType block beforeTransactions
    afterTransactions wpk hpk
  unfold sendTransactions
  rw [hpk]
  cases sequenceType <;> cases block <;>
    simp [partiallySigned_eq_nil, fullySigned_eq_nil, loopSeq, promiseAll]

/-- Witness for C7 at a concrete call. -/
theorem sendTransactions_submits_nothing_witness :
    (sendTransactions ⟨⟨"bh"⟩, fun _ => .ok ⟨"t", 1⟩⟩ [[⟨1⟩]] [[⟨2⟩]]
        ⟨some 7, fun t => t⟩ .Sequential none [] []).1 = .ok (0, []) ∧
    ∀ i, TxsEffect.submit i ∉
      (sendTransactions ⟨⟨"bh"⟩, fun _ => .ok ⟨"t", 1⟩⟩ [[⟨1⟩]] [[⟨2⟩]]
        ⟨some 7, fun t => t⟩ .Sequential none [] []).2 :=
  sendTransactions_submits_nothing.2 ⟨⟨"bh"⟩, fun _ => .ok ⟨"t", 1⟩⟩
    [[⟨1⟩]] [[⟨2⟩]] ⟨some 7, fun t => t⟩ .Sequential none [] [] 7 rfl

/-- C5 (evaluation at the failing input): three instruction groups under
`StopOnFailure` in an environment where the second submission would fail;
`sendTransactions` submits nothing (no `submit` effect in the trace) and
reports `number = 0` with an empty `txs` list, because the signing filters
drop every transaction. -/
theorem sendTransactions_stopOnFailure_eval :
    sendTransactions
      ⟨⟨"bh"⟩, fun i => if i = 1 then .error (.rawFailure "boom") else .ok ⟨"t", 1⟩⟩
      [[⟨1⟩], [⟨2⟩], [⟨3⟩]] [[], [], []] ⟨some 7, fun t => t⟩ .StopOnFailure
      none [] [] =
      (.ok (0, []), [.fetchBlockhash, .signAll 0]) := rfl

/-- C6 (evaluation at the failing input): three instruction groups under
`Parallel`; `sendTransactions` submits none of them (no `submit` effect in
the trace), because the signing filters drop every transaction. -/
theorem sendTransactions_parallel_eval :
    sendTransactions
      ⟨⟨"bh"⟩, fun _ => .ok ⟨"t", 1⟩⟩
      [[⟨1⟩], [⟨2⟩], [⟨3⟩]] [[], [], []] ⟨some 7, fun t => t⟩ .Parallel
      none [] [] =
      (.ok (0, []), [.fetchBlockhash, .signAll 0]) := rfl

/-- C8: with no active wallet public key, both `sendTransaction` and
`sendTransactions` fail with the wallet-not-connected error and an empty
effect trace: no block is fetched, no transaction is built, signed or
submitted. -/
theorem walletNotConnected_guard (envS : STEnv)
    (instructionsS : Sum (List TransactionInstruction) Transaction)
    (signersS : List Keypair) (wallet : Wallet)
    (awaitFlag includesFeePayer : Bool) (blockS : Option BlockhashAndFeeCalculator)
    (envT : TxsEnv) (instructionsT : List (List TransactionInstruction))
    (signersT : List (List Keypair)) (sequenceType : SequenceType)
    (blockT : Option BlockhashAndFeeCalculator)
    (beforeTransactions afterTransactions : List Transaction)
    (h : wallet.publicKey = none) :
    sendTransaction envS instructionsS signersS wallet awaitFlag includesFeePayer
        blockS = (.error .walletNotConnected, []) ∧
    sendTransactions envT instructionsT signersT wallet sequenceType blockT
        beforeTransactions afterTransactions = (.error .walletNotConnected, []) := by
  constructor
  · unfold sendTransaction
    rw [h]
  · unfold sendTransactions
    rw [h]

/-- Witness for C8 at a concrete call. -/
theorem walletNotConnected_guard_witness :
    sendTransaction ⟨⟨"bh"⟩, "t", none⟩ (.inl [⟨1⟩]) [] ⟨none, fun t => t⟩
        true false none = (.error .walletNotConnected, []) ∧
    sendTransactions ⟨⟨"bh"⟩, fun _ => .ok ⟨"t", 1⟩⟩ [[⟨1⟩]] [[]]
        ⟨none, fun t => t⟩ .Parallel none [] [] =
      (.error .walletNotConnected, []) :=
  walletNotConnected_guard ⟨⟨"bh"⟩, "t", none⟩ (.inl [⟨1⟩]) [] ⟨none, fun t => t⟩
    true false none ⟨⟨"bh"⟩, fun _ => .ok ⟨"t", 1⟩⟩ [[⟨1⟩]] [[]] .Parallel none
    [] [] rfl

/-- C9: every transaction built from the instruction groups is assigned
the blockhash of the one shared block, and in a `sendTransactions` call
that block is fetched exactly once when the caller supplies none (and
never when the caller supplies one). -/
theorem sendTransactions_shared_blockhash :
    (∀ blockhash wpk groups, ∀ tx ∈ buildUnsignedTxns blockhash wpk groups,
      tx.recentBlockhash = some blockhash) ∧
    (∀ (env : TxsEnv) instructions signers (wallet : Wallet) sequenceType block
        beforeTransactions afterTransactions wpk,
      wallet.publicKey = some wpk →
      List.count TxsEffect.fetchBlockhash
          (sendTransactions env instructions signers wallet sequenceType block
            beforeTransactions afterTransactions).2 =
        if block.isSome then 0 else 1) := by
  constructor
  · intro blockhash wpk groups tx htx
    obtain ⟨g, _, hg⟩ := List.mem_filterMap.mp htx
    by_cases hlen : g.1.length = 0
    · simp [hlen] at hg
    · simp only [hlen, if_false] at hg
      cases hg
      unfold buildTxn Transaction.partialSign
      split <;> rfl
  · intro env instructions signers wallet sequenceType block beforeTransactions
      afterTransactions wpk hpk
    unfold sendTransactions
    rw [hpk]
    cases sequenceType <;> cases block <;>
      simp [partiallySigned_eq_nil, fullySigned_eq_nil, loopSeq, promiseAll,
        List.count_append]

/-- Witness for C9 at a concrete call (no caller-supplied block, one
non-empty instruction group). -/
theorem sendTransactions_shared_blockhash_witness :
    (buildTxn "bh" 7 [⟨1⟩] []).recentBlockhash = some "bh" ∧
    List.count TxsEffect.fetchBlockhash
        (sendTransactions ⟨⟨"bh"⟩, fun _ => .ok ⟨"t", 1⟩⟩ [[⟨1⟩]] [[]]
          ⟨some 7, fun t => t⟩ .Sequential none [] []).2 =
      if (none : Option BlockhashAndFeeCalculator).isSome then 0 else 1 :=
  ⟨sendTransactions_shared_blockhash.1 "bh" 7 [([⟨1⟩], [])] (buildTxn "bh" 7 [⟨1⟩] [])
      (by decide),
    sendTransactions_shared_blockhash.2 ⟨⟨"bh"⟩, fun _ => .ok ⟨"t", 1⟩⟩ [[⟨1⟩]] [[]]
      ⟨some 7, fun t => t⟩ .Sequential none [] [] 7 rfl⟩

end CandyMachine
